import Mathlib

/-!
Verification of the disk-usage scanning engine of ncdu-web.

The definitions below are shallow embeddings of the TypeScript sources:
  * `src/server/src/services/disk.ts` — classifier `shouldSkipPath`, scanner
    `diskAPI.analyzeItem`, service `diskService.analyzePath`,
    `diskService.deletePath`, `diskService.getMounts`,
    helper `calculateDirectorySize`;
  * `src/server/src/utils/platform.ts` — `normalizePath`;
  * the frontend `normalizePath` of the analysis page.

JavaScript string primitives (`includes`, `startsWith`, `toLowerCase`,
`trim`, `split`, `parseInt`, `path.basename`, `path.join`) are modelled by
executable Lean functions over the character data of the string.  All paths
handled by the server code are Windows-style backslash-separated paths, so
`path.basename`/`path.join` are modelled for the backslash separator.
`Char.toLower` agrees with JavaScript `toLowerCase` on the ASCII strings
involved.  The filesystem and the platform command are external
environments; they are modelled as explicit inputs (an entry tree for the
recursive scanner, and query functions for the path-indexed service code).
-/

/-- Model of JavaScript `hay.includes(needle)`: substring test on the
character lists. -/
def containsSub (needle : List Char) : List Char → Bool
  | [] => needle.isPrefixOf []
  | c :: t => needle.isPrefixOf (c :: t) || containsSub needle t

/-- JavaScript `hay.includes(needle)` for strings. -/
def jsIncludes (hay needle : String) : Bool := containsSub needle.data hay.data

/-- JavaScript `s.startsWith(pre)`. -/
def jsStartsWith (s pre : String) : Bool := pre.data.isPrefixOf s.data

/-- JavaScript `s.endsWith(suf)`. -/
def jsEndsWith (s suf : String) : Bool := suf.data.reverse.isPrefixOf s.data.reverse

/-- JavaScript `s.toLowerCase()` (ASCII case folding). -/
def jsToLower (s : String) : String := ⟨s.data.map Char.toLower⟩

/-- ASCII whitespace characters recognised by the `trim` model. -/
def isWsChar (c : Char) : Bool := c = ' ' || c = '\n' || c = '\r' || c = '\t'

/-- JavaScript `s.trim()`. -/
def jsTrim (s : String) : String :=
  ⟨((s.data.dropWhile isWsChar).reverse.dropWhile isWsChar).reverse⟩

/-- Split a character list on a separator character (model of
JavaScript `s.split(sep)` for a one-character separator). -/
def splitOnChar (sep : Char) : List Char → List (List Char)
  | [] => [[]]
  | c :: t =>
    match splitOnChar sep t with
    | [] => [[]]
    | h :: rt => if c = sep then [] :: h :: rt else (c :: h) :: rt

/-- JavaScript `s.split(sep)` for a one-character separator string. -/
def jsSplit (s : String) (sep : Char) : List String :=
  (splitOnChar sep s.data).map String.mk

/-- JavaScript `parseInt(s) || 0`: parses an optional sign followed by a
leading run of decimal digits of the trimmed string; anything unparsable
(`NaN`) collapses to `0` through the `|| 0` guard in the source. -/
def jsParseInt (s : String) : Int :=
  let t := (jsTrim s).data
  let sign : Int := if t.head? = some '-' then -1 else 1
  let rest := if t.head? = some '-' || t.head? = some '+' then t.drop 1 else t
  let ds := rest.takeWhile Char.isDigit
  if ds = [] then 0
  else sign * (ds.foldl (fun a c => a * 10 + ((c.toNat : Int) - 48)) 0)

/-- `path.basename` for a backslash-separated Windows path: the part after
the last backslash (empty for a path ending in a backslash, e.g. a drive
root). -/
def jsBasename (p : String) : String :=
  String.mk ((splitOnChar '\\' p.data).getLastD [])

/-- `path.basename(itemPath) || itemPath`, the name fallback the scanner
uses: the basename when it is non-empty, otherwise the whole path. -/
def basenameOr (p : String) : String :=
  if jsBasename p = "" then p else jsBasename p

/-- `path.join(dirPath, item)` for backslash paths. -/
def joinPath (p item : String) : String :=
  if jsEndsWith p "\\" then p ++ item else p ++ "\\" ++ item

/-! ## Path Classifier (`shouldSkipPath`, disk.ts lines 63-117) -/

/-- The static reserved/system marker table `SYSTEM_PATHS` of
`src/server/src/services/disk.ts`. -/
def SYSTEM_PATHS : List String :=
  ["System Volume Information", "pagefile.sys", "swapfile.sys",
   "hiberfil.sys", "DumpStack.log", "$Recycle.Bin", "$WINDOWS.~BT",
   "$Windows.~WS", "Windows.old", "DumpStack.log.tmp", "bootnxt",
   "bootmgr", "boot", "config.sys", "Recovery", "ProgramData",
   "Documents and Settings", "desktop.ini", ".DocumentRevisions-V100",
   ".fseventsd", ".Spotlight-V100", ".TemporaryItems", ".Trashes", ".vol",
   "WindowsApps", "WpSystem", "MSOCache", "\\$GetCurrent", "\\$SysReset",
   "\\$Windows.~WS", "\\$WinREAgent", "NTUSER.DAT"]

/-- The classifier `shouldSkipPath` of `src/server/src/services/disk.ts`:
skips (1) any path containing a `SYSTEM_PATHS` marker case-insensitively,
(2) any base name starting with `$` or `.`, (3) any path containing
`windows` or `program files` case-insensitively.  It takes no settings
argument. -/
def shouldSkipPath (itemPath : String) : Bool :=
  if SYSTEM_PATHS.any (fun s => jsIncludes (jsToLower itemPath) (jsToLower s)) then
    true
  else
    let basename := jsBasename itemPath
    if jsStartsWith basename "$" || jsStartsWith basename "." then true
    else if jsIncludes (jsToLower itemPath) "windows" ||
            jsIncludes (jsToLower itemPath) "program files" then true
    else false

/-! ## Path Normalizer -/

/-- `normalizePath` of `src/server/src/utils/platform.ts`: on Windows the
path is returned unchanged; otherwise the reserved token `root` maps to
`/` and everything else is unchanged.  The ambient `platform.isWindows`
is passed explicitly. -/
def normalizePath (isWindows : Bool) (path : String) : String :=
  if isWindows then path
  else if path = "root" then "/" else path

/-- The fixed list of top-level Windows directories recognised by the
frontend normalizer. -/
def topLevelDirs : List String :=
  ["Windows", "Program Files", "Program Files (x86)", "Users", "ProgramData"]

/-- The frontend `normalizePath` of the analysis page: `root` maps to
`C:`; a known top-level directory name without a drive letter or leading
slash is qualified with `C:\`; everything else is unchanged. -/
def normalizePathFrontend (pathParam : String) : String :=
  if pathParam = "root" then "C:"
  else if !jsIncludes pathParam ":" && !jsStartsWith pathParam "/" then
    if topLevelDirs.contains pathParam then "C:\\" ++ pathParam else pathParam
  else pathParam

/-! ## Data model: sized nodes (`FileNode` of disk.ts) -/

inductive FType where
  | file
  | directory
  deriving Repr, DecidableEq

/-- The `FileNode` record of disk.ts: `{ name, size, type, children? }`.
The `children` field is optional exactly as in the source; there is no
estimate flag and no other field. -/
inductive FileNode where
  | mk (name : String) (size : Nat) (type : FType)
      (children : Option (List FileNode))
  deriving Repr

def FileNode.name : FileNode → String
  | .mk nm _ _ _ => nm

def FileNode.size : FileNode → Nat
  | .mk _ sz _ _ => sz

def FileNode.type : FileNode → FType
  | .mk _ _ t _ => t

def FileNode.children : FileNode → Option (List FileNode)
  | .mk _ _ _ c => c

/-- The children sequence of a node (empty when the field is absent). -/
def FileNode.childList (n : FileNode) : List FileNode :=
  n.children.getD []

/-- `children.reduce((acc, child) => acc + child.size, 0)`. -/
def sumSizes (l : List FileNode) : Nat :=
  l.foldl (fun acc c => acc + c.size) 0

/-- One insertion step of the size-descending sort: the new element is
placed before the first element whose size is not larger. -/
def insertDesc (a : FileNode) : List FileNode → List FileNode
  | [] => [a]
  | b :: t => if b.size ≤ a.size then a :: b :: t else b :: insertDesc a t

/-- Model of `children.sort((a, b) => b.size - a.size)`: a stable
size-descending sort (ECMAScript sorts are stable, so the comparator
determines the result uniquely; stable insertion sort realises it). -/
def jsSortBySizeDesc (l : List FileNode) : List FileNode :=
  l.foldr insertDesc []

/-- The children sequence is sorted descending by size. -/
def SortedDesc (l : List FileNode) : Prop :=
  List.Pairwise (fun a b => b.size ≤ a.size) l

/-- A directory node carries exactly the sum of its children sizes (file
nodes are unconstrained). -/
def DirSumOK (n : FileNode) : Prop :=
  n.type = .directory → n.size = sumSizes n.childList

/-- A predicate holding at a node and, recursively, at every node of its
children tree. -/
inductive TreeOK (P : FileNode → Prop) : FileNode → Prop where
  | node (n : FileNode) : P n → (∀ c ∈ n.childList, TreeOK P c) → TreeOK P n

/-! ## The recursive scanner `diskAPI.analyzeItem` (disk.ts lines 131-193)

The filesystem subtree under a path is modelled as an entry tree.  Each
constructor records what the filesystem calls of the source observe at
that path: a file with its `stat` size, a readable directory with its
`readdir` listing, a directory whose `readdir` raises (caught at disk.ts
line 167), an entry whose `stat` raises (caught at line 184), or an entry
that is neither a file nor a directory (line 179). -/

mutual
inductive FSEntry where
  | file (size : Nat)
  | dir (entries : FSEntries)
  | dirUnreadable
  | statFails
  | other
  deriving Repr

inductive FSEntries where
  | nil
  | cons (name : String) (e : FSEntry) (rest : FSEntries)
  deriving Repr
end

def FSEntries.toList : FSEntries → List (String × FSEntry)
  | .nil => []
  | .cons nm e rest => (nm, e) :: rest.toList

def FSEntries.length (l : FSEntries) : Nat := l.toList.length

mutual
/-- `diskAPI.analyzeItem`: skip-check first (returning a zero-size file
node for skipped paths), then `stat`; files report their stat size;
directories list and recursively analyze every child — a child analysis
never throws, so every listed child contributes a node — and return the
sum of the children's sizes with the children sorted size-descending; an
unreadable listing yields an empty directory node; a failed `stat` or an
entry of any other kind yields a zero-size file node. -/
def analyzeItem (p : String) (e : FSEntry) : FileNode :=
  if shouldSkipPath p then .mk (basenameOr p) 0 .file none
  else
    match e with
    | .file sz => .mk (basenameOr p) sz .file none
    | .dir entries =>
      let children := analyzeChildren p entries
      .mk (basenameOr p) (sumSizes children) .directory
        (some (jsSortBySizeDesc children))
    | .dirUnreadable => .mk (basenameOr p) 0 .directory (some [])
    | .statFails => .mk (basenameOr p) 0 .file none
    | .other => .mk (basenameOr p) 0 .file none

/-- The loop over `await fs.readdir(itemPath)` in `analyzeItem`:
each listed entry is analyzed at its joined path. -/
def analyzeChildren (p : String) (l : FSEntries) : List FileNode :=
  match l with
  | .nil => []
  | .cons nm e rest => analyzeItem (joinPath p nm) e :: analyzeChildren p rest
end


/-! ## Filesystem environment for the path-indexed service code

`diskService.analyzePath`, `deletePath` and `calculateDirectorySize`
query the filesystem by path.  The environment is a record of query
functions: `readdir` returns the listing or `none` when the call raises,
`stat` returns the stat record or the raised error code, `rmErr` gives
the error raised by `fs.rm`/`fs.unlink` (or `none` on success), and
`resolve` models `path.resolve` for relative paths. -/

inductive StatKind where
  | file
  | directory
  | other
  deriving Repr, DecidableEq

structure Stats where
  kind : StatKind
  size : Nat
  deriving Repr, DecidableEq

inductive FsErr where
  | EACCES
  | EPERM
  | EBUSY
  | ENOENT
  | EOTHER
  deriving Repr, DecidableEq

structure FS where
  readdir : String → Option (List String)
  stat : String → Except FsErr Stats
  rmErr : String → Option FsErr
  resolve : String → String

/-- A `stat` call used only for its success value (`try`/`catch` without
error inspection). -/
def FS.statOk (fs : FS) (p : String) : Option Stats := (fs.stat p).toOption

/-! ## The cache (`diskCache` of disk.ts) -/

/-- The `LargeDirectory` record of disk.ts. -/
structure LargeDirectory where
  path : String
  size : Nat
  name : String
  deriving Repr, DecidableEq

/-- The `MountPoint` record of disk.ts.  Sizes are integers: `used` is
computed as `total - available` and can in principle go negative. -/
structure MountPoint where
  name : String
  path : String
  total : Int
  used : Int
  available : Int
  deriving Repr, DecidableEq

/-- The in-memory cache object `diskCache` of disk.ts.  The
`largeDirectories` JavaScript object is modelled as an association list
with unique keys. -/
structure DiskCache where
  mountPoints : List MountPoint
  largeDirectories : List (String × List LargeDirectory)
  lastUpdated : Nat
  deriving Repr, DecidableEq

def emptyDiskCache : DiskCache := ⟨[], [], 0⟩

/-- `diskCache.largeDirectories[targetPath] = v` on an association list:
replace the binding if the key is present, append it otherwise. -/
def setKey (k : String) (v : List LargeDirectory) :
    List (String × List LargeDirectory) → List (String × List LargeDirectory)
  | [] => [(k, v)]
  | (k2, v2) :: t => if k2 = k then (k, v) :: t else (k2, v2) :: setKey k v t

/-- `delete diskCache.largeDirectories[targetPath]` on an association
list with unique keys. -/
def delKey (k : String) :
    List (String × List LargeDirectory) → List (String × List LargeDirectory)
  | [] => []
  | (k2, v2) :: t => if k2 = k then t else (k2, v2) :: delKey k t

/-! ## `calculateDirectorySize` (disk.ts lines 732-799) -/

/-- The per-item skip test of `calculateDirectorySize` (lines 755-761):
names starting with `$` and the known locked system files. -/
def calcSkipsItem (item : String) : Bool :=
  jsStartsWith item "$" || item = "hiberfil.sys" || item = "pagefile.sys" ||
    item = "swapfile.sys" || item = "DumpStack.log.tmp"

/-- The system folders that are never scanned but charged a fixed
estimate (lines 772-779). -/
def systemEstimateDirs : List String :=
  ["Windows", "Program Files", "Program Files (x86)", "ProgramData"]

/-- The fixed `1024 * 1024 * 1024` estimate added for a system folder. -/
def oneGB : Nat := 1024 * 1024 * 1024

/-- One directory level of `calculateDirectorySize`: if the listing
raises, fall back to the directory's own stat size (0 if even `stat`
raises); otherwise sum the listed items — files add their stat size;
subdirectories add the fixed 1 GB estimate when named in
`systemEstimateDirs` or the recursive size when depth remains
(`recurseInto` is the recursive call at `maxDepth - 1`, absent when the
source's `maxDepth > 0` test fails, in which case a subdirectory adds
nothing); items whose `stat` raises add nothing. -/
def calcLevel (fs : FS) (dirPath : String) (recurseInto : Option (String → Nat)) : Nat :=
  match fs.readdir dirPath with
  | none =>
    match fs.statOk dirPath with
    | some st => st.size
    | none => 0
  | some items =>
    items.foldl
      (fun totalSize item =>
        if calcSkipsItem item then totalSize
        else
          match fs.statOk (joinPath dirPath item) with
          | none => totalSize
          | some st =>
            match st.kind with
            | .file => totalSize + st.size
            | .directory =>
              match recurseInto with
              | none => totalSize
              | some f =>
                if systemEstimateDirs.contains item then totalSize + oneGB
                else totalSize + f (joinPath dirPath item)
            | .other => totalSize)
      0

/-- `calculateDirectorySize(dirPath, maxDepth)` (disk.ts lines 732-799),
by recursion on the depth budget.  Every call site passes a nonnegative
depth, so the `maxDepth < 0` guard of the source is unreachable and the
exhausted budget is the `0` case here. -/
def calculateDirectorySize (fs : FS) : Nat → String → Nat
  | 0, dirPath => calcLevel fs dirPath none
  | d + 1, dirPath => calcLevel fs dirPath (some (calculateDirectorySize fs d))

/-! ## `diskService.analyzePath` (disk.ts lines 370-614) -/

structure AnalyzeResult where
  result : FileNode
  lastUpdated : Nat
  deriving Repr

/-- The root-drive loop (lines 406-448): each root item not in the
locked-file list is stat-ed; directories enter with their depth-2
`calculateDirectorySize`, files enter only above the 10 MB threshold. -/
def driveRootChildren (fs : FS) (rootPath : String) (rootItems : List String) :
    List FileNode :=
  rootItems.foldl
    (fun children item =>
      let itemPath := joinPath rootPath item
      if jsIncludes itemPath "$Recycle.Bin" ||
          jsIncludes itemPath "System Volume Information" ||
          item = "pagefile.sys" || item = "hiberfil.sys" ||
          item = "swapfile.sys" || item = "DumpStack.log.tmp" then children
      else
        match fs.statOk itemPath with
        | none => children
        | some st =>
          match st.kind with
          | .directory =>
            children ++ [.mk item (calculateDirectorySize fs 2 itemPath) .directory none]
          | .file =>
            if 10485760 < st.size then children ++ [.mk item st.size .file none]
            else children
          | .other => children)
    []

/-- Lines 450-453: drop zero-size items, then sort size-descending. -/
def driveSortedChildren (fs : FS) (rootPath : String) (rootItems : List String) :
    List FileNode :=
  jsSortBySizeDesc
    ((driveRootChildren fs rootPath rootItems).filter (fun c => decide (0 < c.size)))

/-- The fixed fallback probe list (lines 460-465). -/
def driveFallbackPaths (rootPath : String) : List String :=
  [rootPath ++ "Users", rootPath ++ "Documents and Settings",
   rootPath ++ "Program Files", rootPath ++ "Program Files (x86)"]

/-- Lines 467-484: each probe that stats successfully and has a positive
depth-1 size is pushed, in probe order, without re-sorting. -/
def driveFallbackChildren (fs : FS) (rootPath : String) : List FileNode :=
  (driveFallbackPaths rootPath).foldl
    (fun acc fbPath =>
      match fs.statOk fbPath with
      | none => acc
      | some _ =>
        let dirSize := calculateDirectorySize fs 1 fbPath
        if 0 < dirSize then acc ++ [.mk (jsBasename fbPath) dirSize .directory none]
        else acc)
    []

/-- Lines 450-494 assembled: the sorted positive-size top-level entries;
if none, the fallback probes are appended; if still none, the
`No accessible directories found` placeholder. -/
def driveFinalChildren (fs : FS) (rootPath : String) (rootItems : List String) :
    List FileNode :=
  let sorted := driveSortedChildren fs rootPath rootItems
  let withFallback :=
    if sorted.isEmpty then sorted ++ driveFallbackChildren fs rootPath else sorted
  if withFallback.isEmpty then
    [.mk "No accessible directories found" 0 .directory none]
  else withFallback

/-- Lines 497-503: the cache entry stored for a drive scan — the
directory-typed children, re-keyed under the drive path. -/
def cacheEntryFromChildren (targetPath : String) (final : List FileNode) :
    List LargeDirectory :=
  (final.filter (fun n => n.type = .directory)).map
    (fun n => ⟨targetPath ++ "\\" ++ n.name, n.size, n.name⟩)

/-- The non-drive directory loop (lines 561-586): files enter with their
stat size, directories with their depth-1 `calculateDirectorySize`,
failing or other entries are skipped. -/
def nondriveChildren (fs : FS) (fullPath : String) (items : List String) :
    List FileNode :=
  items.foldl
    (fun children item =>
      let itemPath := joinPath fullPath item
      match fs.statOk itemPath with
      | none => children
      | some st =>
        match st.kind with
        | .file => children ++ [.mk item st.size .file none]
        | .directory =>
          children ++ [.mk item (calculateDirectorySize fs 1 itemPath) .directory none]
        | .other => children)
    []

/-- `diskService.analyzePath(targetPath, forceRefresh)`: serve the cached
large-directory list when permitted; otherwise scan a drive root with the
shallow strategy (updating the cache) or a plain path with the one-level
strategy (not updating the cache); every failure branch returns a
structured zero-size node.  `now` models `Date.now()`. -/
def diskService_analyzePath (fs : FS) (cache : DiskCache) (targetPath : String)
    (forceRefresh : Bool) (now : Nat) : AnalyzeResult × DiskCache :=
  let cached :=
    if forceRefresh then none else List.lookup targetPath cache.largeDirectories
  match cached with
  | some dirs =>
    let children := dirs.map (fun d => FileNode.mk d.name d.size .directory none)
    (⟨.mk targetPath (sumSizes children) .directory (some children),
      cache.lastUpdated⟩, cache)
  | none =>
    if jsEndsWith targetPath ":" then
      let rootPath := targetPath ++ "\\"
      match fs.readdir rootPath with
      | none =>
        (⟨.mk (basenameOr rootPath) 0 .directory
            (some [.mk "Error analyzing drive" 0 .directory none]),
          cache.lastUpdated⟩, cache)
      | some rootItems =>
        let final := driveFinalChildren fs rootPath rootItems
        let cache2 : DiskCache :=
          ⟨cache.mountPoints,
           setKey targetPath (cacheEntryFromChildren targetPath final)
             cache.largeDirectories, now⟩
        (⟨.mk (basenameOr rootPath) (sumSizes final) .directory (some final), now⟩,
          cache2)
    else
      let fullPath :=
        if jsIncludes targetPath ":" then targetPath else fs.resolve targetPath
      match fs.statOk fullPath with
      | some st =>
        match st.kind with
        | .file => (⟨.mk (jsBasename fullPath) st.size .file none, now⟩, cache)
        | .directory =>
          match fs.readdir fullPath with
          | none => (⟨.mk (basenameOr targetPath) 0 .directory (some []), now⟩, cache)
          | some items =>
            let sortedChildren := jsSortBySizeDesc (nondriveChildren fs fullPath items)
            (⟨.mk (jsBasename fullPath) (sumSizes sortedChildren) .directory
                (some sortedChildren), now⟩, cache)
        | .other => (⟨.mk (basenameOr targetPath) 0 .directory (some []), now⟩, cache)
      | none => (⟨.mk (basenameOr targetPath) 0 .directory (some []), now⟩, cache)

/-! ## `diskService.deletePath` (disk.ts lines 647-692) -/

structure DeleteResult where
  success : Bool
  message : String
  deriving Repr, DecidableEq

/-- The error-message classification of the `catch` block
(lines 677-685). -/
def deleteErrMessage : FsErr → String
  | .EACCES => "Permission denied. Try running with administrator privileges or check file permissions."
  | .EPERM => "Permission denied. Try running with administrator privileges or check file permissions."
  | .EBUSY => "File or directory is in use by another process. Close any applications using this path and try again."
  | .ENOENT => "File or directory not found."
  | .EOTHER => "Failed to delete path"

/-- `diskService.deletePath(targetPath)`: stat the path, remove it
(recursively for a directory, `unlink` for a file — both modelled by
`rmErr`), and on success delete the cache entry keyed exactly by
`targetPath` when one exists.  No other cache key is touched. -/
def diskService_deletePath (fs : FS) (cache : DiskCache) (targetPath : String) :
    DeleteResult × DiskCache :=
  match fs.stat targetPath with
  | .error e => (⟨false, deleteErrMessage e⟩, cache)
  | .ok st =>
    match fs.rmErr targetPath with
    | some e => (⟨false, deleteErrMessage e⟩, cache)
    | none =>
      let cache2 :=
        if (List.lookup targetPath cache.largeDirectories).isSome then
          DiskCache.mk cache.mountPoints (delKey targetPath cache.largeDirectories)
            cache.lastUpdated
        else cache
      (⟨true, "Successfully deleted " ++
          (if st.kind = .directory then "directory" else "file") ++ ": " ++ targetPath⟩,
        cache2)

/-! ## `diskService.getMounts` (disk.ts lines 268-363) -/

/-- The environment of one `getMounts` call: the `wmic` invocation result
(`none` when the command raises), whether `fs.stat("D:\\")` succeeds in
the fallback, and `Date.now()`. -/
structure VolEnv where
  execResult : Option String
  dStatOk : Bool
  now : Nat

structure MountsResult where
  mountPoints : List MountPoint
  lastUpdated : Nat
  deriving Repr, DecidableEq

/-- Parsing of the `wmic logicaldisk` CSV output (lines 282-310): skip
the first line, split each remaining line on commas, require at least 3
fields and a non-empty caption and size, and keep only volumes with
positive total size. -/
def parseWmicOutput (stdout : String) : List MountPoint :=
  let lines := (jsSplit (jsTrim stdout) '\n').drop 1
  lines.foldl
    (fun mounts line =>
      let parts := jsSplit (jsTrim line) ','
      if parts.length < 3 then mounts
      else
        let caption := parts.getD 1 ""
        let freeSpace := parts.getD 2 ""
        let size := parts.get? 3
        let volumeName := if 4 < parts.length then parts.getD 4 "" else ""
        if caption = "" || size = none || size = some "" then mounts
        else
          let total := jsParseInt (size.getD "")
          let available := jsParseInt freeSpace
          let used := total - available
          if 0 < total then
            mounts ++
              [⟨if volumeName ≠ "" then volumeName ++ " (" ++ caption ++ ")"
                else caption, caption, total, used, available⟩]
          else mounts)
    []

/-- The hard-coded fallback C: record (lines 331-337). -/
def fallbackMountC : MountPoint := ⟨"C:", "C:", 250000000000, 150000000000, 100000000000⟩

/-- The hard-coded fallback D: record (lines 343-349). -/
def fallbackMountD : MountPoint := ⟨"D:", "D:", 250000000000, 150000000000, 100000000000⟩

/-- `diskService.getMounts(forceRefresh)`.  The third component records
whether the platform enumeration command was issued by this call.  With a
non-empty cached list and no forced refresh the cached list and cached
timestamp are returned and no command runs; otherwise the command result
is parsed and cached (whatever it parses to), and on command failure the
hard-coded fallback fills an empty cache while a non-empty (stale) cache
is served as-is. -/
def diskService_getMounts (env : VolEnv) (cache : DiskCache) (forceRefresh : Bool) :
    MountsResult × DiskCache × Bool :=
  if !forceRefresh && !cache.mountPoints.isEmpty then
    (⟨cache.mountPoints, cache.lastUpdated⟩, cache, false)
  else
    match env.execResult with
    | some stdout =>
      let mounts := parseWmicOutput stdout
      (⟨mounts, env.now⟩,
        DiskCache.mk mounts cache.largeDirectories env.now, true)
    | none =>
      if cache.mountPoints.isEmpty then
        let fallback :=
          fallbackMountC :: (if env.dStatOk then [fallbackMountD] else [])
        (⟨fallback, env.now⟩,
          DiskCache.mk fallback cache.largeDirectories env.now, true)
      else
        (⟨cache.mountPoints, cache.lastUpdated⟩, cache, true)

/-! ## Concrete filesystem environments for witnesses and counterexamples -/

/-- A drive whose root listing shows nothing usable but whose fallback
probes find `Users` (10 bytes) and then `Program Files` (20 bytes). -/
def fsDriveFallback : FS where
  readdir p :=
    if p = "C:\\" then some []
    else if p = "C:\\Users" then some ["a.dat"]
    else if p = "C:\\Program Files" then some ["b.dat"]
    else none
  stat p :=
    if p = "C:\\Users" then .ok ⟨.directory, 0⟩
    else if p = "C:\\Program Files" then .ok ⟨.directory, 0⟩
    else if p = "C:\\Users\\a.dat" then .ok ⟨.file, 10⟩
    else if p = "C:\\Program Files\\b.dat" then .ok ⟨.file, 20⟩
    else .error .ENOENT
  rmErr _ := none
  resolve p := p

/-- A drive with one large root file, so the sorted top-level scan is
non-empty and no fallback fires. -/
def fsDriveDirect : FS where
  readdir p := if p = "C:\\" then some ["big.bin"] else none
  stat p := if p = "C:\\big.bin" then .ok ⟨.file, 20000000⟩ else .error .ENOENT
  rmErr _ := none
  resolve p := p

/-- `C:\data\stuff` contains a `Windows` subdirectory whose real content
is a single 123-byte file; the depth-1 size of `stuff` is the fixed 1 GB
estimate. -/
def fsEstimated : FS where
  readdir p :=
    if p = "C:\\data" then some ["stuff"]
    else if p = "C:\\data\\stuff" then some ["Windows"]
    else if p = "C:\\data\\stuff\\Windows" then some ["w.txt"]
    else none
  stat p :=
    if p = "C:\\data" then .ok ⟨.directory, 0⟩
    else if p = "C:\\data\\stuff" then .ok ⟨.directory, 0⟩
    else if p = "C:\\data\\stuff\\Windows" then .ok ⟨.directory, 0⟩
    else if p = "C:\\data\\stuff\\Windows\\w.txt" then .ok ⟨.file, 123⟩
    else .error .ENOENT
  rmErr _ := none
  resolve p := p

/-- `C:\data\stuff` contains one file of exactly `oneGB` bytes, so the
depth-1 size of `stuff` is an exact measurement of the same value. -/
def fsExact : FS where
  readdir p :=
    if p = "C:\\data" then some ["stuff"]
    else if p = "C:\\data\\stuff" then some ["huge.bin"]
    else none
  stat p :=
    if p = "C:\\data" then .ok ⟨.directory, 0⟩
    else if p = "C:\\data\\stuff" then .ok ⟨.directory, 0⟩
    else if p = "C:\\data\\stuff\\huge.bin" then .ok ⟨.file, 1073741824⟩
    else .error .ENOENT
  rmErr _ := none
  resolve p := p

/-- An environment in which `C:\Users` exists and deletes cleanly. -/
def fsDeleteUsers : FS where
  readdir _ := none
  stat p := if p = "C:\\Users" then .ok ⟨.directory, 0⟩ else .error .ENOENT
  rmErr _ := none
  resolve p := p

/-- A cache holding a scan of the drive root `C:` (listing `Users` at 100
bytes and `temp` at 40) and a scan of `C:\Users`. -/
def cacheWithUsers : DiskCache :=
  ⟨[], [("C:", [⟨"C:\\Users", 100, "Users"⟩, ⟨"C:\\temp", 40, "temp"⟩]),
        ("C:\\Users", [⟨"C:\\Users\\bob", 60, "bob"⟩])], 111⟩

/-- A small readable directory used as the C1 witness environment. -/
def fsDocs : FS where
  readdir p := if p = "C:\\docs" then some ["a.txt", "b.txt"] else none
  stat p :=
    if p = "C:\\docs" then .ok ⟨.directory, 0⟩
    else if p = "C:\\docs\\a.txt" then .ok ⟨.file, 3⟩
    else if p = "C:\\docs\\b.txt" then .ok ⟨.file, 4⟩
    else .error .ENOENT
  rmErr _ := none
  resolve p := p

/-- A `wmic` success whose output parses to no volumes (header only). -/
def envEmptyParse : VolEnv := ⟨some "Node,Caption,FreeSpace,Size,VolumeName", false, 5⟩

/-! ## Claims C7, C8, C9 -/

theorem containsSub_of_isPrefixOf (needle hay : List Char)
    (h : needle.isPrefixOf hay = true) : containsSub needle hay = true := by
  cases hay with
  | nil => simpa [containsSub] using h
  | cons c t => simp [containsSub, h]

theorem containsSub_cons_of_tail (needle : List Char) (c : Char) (t : List Char)
    (h : containsSub needle t = true) : containsSub needle (c :: t) = true := by
  simp [containsSub, h]

/-- C8 helper: the first classifier rule fires whenever some marker occurs
case-insensitively in the path. -/
theorem shouldSkipPath_of_marker (p marker : String)
    (hmem : marker ∈ SYSTEM_PATHS)
    (hinc : jsIncludes (jsToLower p) (jsToLower marker) = true) :
    shouldSkipPath p = true := by
  have hany : SYSTEM_PATHS.any
      (fun s => jsIncludes (jsToLower p) (jsToLower s)) = true :=
    List.any_eq_true.mpr ⟨marker, hmem, hinc⟩
  simp [shouldSkipPath, hany]

/-- C8: `shouldSkipPath` returns true for every path that contains a
configured reserved/system marker as a substring, case-insensitively (the
source lower-cases both the path and the marker before the substring
test), regardless of the casing of either side. -/
theorem shouldSkipPath_marker_case_insensitive (p marker : String)
    (hmem : marker ∈ SYSTEM_PATHS)
    (hinc : jsIncludes (jsToLower p) (jsToLower marker) = true) :
    shouldSkipPath p = true :=
  shouldSkipPath_of_marker p marker hmem hinc

/-- C8 witness: an oddly-cased path containing the oddly-cased marker
`pagefile.sys` is skipped. -/
theorem shouldSkipPath_marker_case_insensitive_witness :
    ("pagefile.sys" ∈ SYSTEM_PATHS
      ∧ jsIncludes (jsToLower "D:\\PageFile.Sys") (jsToLower "pagefile.sys") = true)
    ∧ shouldSkipPath "D:\\PageFile.Sys" = true :=
  ⟨⟨by decide, by decide⟩,
    shouldSkipPath_marker_case_insensitive "D:\\PageFile.Sys" "pagefile.sys"
      (by decide) (by decide)⟩

/-- C7 counterexample: the claim says a dot-named entry is skipped *only
when* the show-hidden setting is false, and that `shouldSkip` returns
false for it when show-hidden is true and no other rule matches.  The
classifier of `disk.ts` takes no show-hidden input at all, so its result
is the same under every setting: it skips `C:\Users\bob\.npmrc`
unconditionally.  The companion path `C:\Users\bob\npmrc` (same path with
the hidden marker removed) shows that no other classifier rule matches
this path. -/
theorem shouldSkipPath_hidden_ignores_show_hidden_counterexample :
    shouldSkipPath "C:\\Users\\bob\\.npmrc" = true
      ∧ shouldSkipPath "C:\\Users\\bob\\npmrc" = false := by
  constructor <;> decide

/-- C7 (amended): an entry whose base name starts with the platform's
hidden-file marker (`.`, or the reserved prefix `$`) is skipped by the
classifier's hidden-name rule unconditionally; the classifier consults no
show-hidden setting. -/
theorem shouldSkipPath_hidden_unconditional (p : String)
    (h : jsStartsWith (jsBasename p) "$" = true
          ∨ jsStartsWith (jsBasename p) "." = true) :
    shouldSkipPath p = true := by
  unfold shouldSkipPath
  rcases h with h | h <;>
    · split
      · rfl
      · simp [h]

/-- C7 witness for the amended statement: a dot-named user file is
skipped. -/
theorem shouldSkipPath_hidden_unconditional_witness :
    jsStartsWith (jsBasename "C:\\Users\\carol\\.gitconfig") "." = true
      ∧ shouldSkipPath "C:\\Users\\carol\\.gitconfig" = true :=
  ⟨by decide,
    shouldSkipPath_hidden_unconditional "C:\\Users\\carol\\.gitconfig"
      (Or.inr (by decide))⟩

theorem jsIncludes_drivePrefix (x : String) :
    jsIncludes ("C:\\" ++ x) ":" = true := by
  have hdata : ("C:\\" ++ x).data = 'C' :: ':' :: '\\' :: x.data := by
    simp [String.data_append]
  simp [jsIncludes, hdata, containsSub, List.isPrefixOf]

theorem drivePrefix_ne_root (x : String) : ("C:\\" ++ x) ≠ "root" := by
  intro h
  have hdata : ("C:\\" ++ x).data = 'C' :: ':' :: '\\' :: x.data := by
    simp [String.data_append]
  have : ('C' :: ':' :: '\\' :: x.data) = "root".data := by
    rw [← hdata, h]
  simp at this

/-- C9: both path normalizers are idempotent: the server normalizer of
`platform.ts` (under either value of `platform.isWindows`) and the
frontend normalizer of the analysis page.  Both are total Lean functions
defined for every input string, so neither can raise. -/
theorem normalizePath_idempotent :
    (∀ (w : Bool) (x : String),
        normalizePath w (normalizePath w x) = normalizePath w x)
    ∧ (∀ x : String,
        normalizePathFrontend (normalizePathFrontend x) = normalizePathFrontend x) := by
  constructor
  · intro w x
    by_cases hw : w
    · simp [normalizePath, hw]
    · by_cases hr : x = "root" <;> simp [normalizePath, hw, hr]
  · intro x
    by_cases hr : x = "root"
    · subst hr
      simp [normalizePathFrontend]
      decide
    · by_cases hni : (!jsIncludes x ":" && !jsStartsWith x "/") = true
      · by_cases htl : topLevelDirs.contains x = true
        · have h1 : normalizePathFrontend x = "C:\\" ++ x := by
            unfold normalizePathFrontend
            rw [if_neg hr, if_pos hni, if_pos htl]
          have h2 : normalizePathFrontend ("C:\\" ++ x) = "C:\\" ++ x := by
            unfold normalizePathFrontend
            rw [if_neg (drivePrefix_ne_root x)]
            rw [jsIncludes_drivePrefix x]
            simp
          rw [h1, h2]
        · have h1 : normalizePathFrontend x = x := by
            unfold normalizePathFrontend
            rw [if_neg hr, if_pos hni, if_neg htl]
          rw [h1, h1]
      · have h1 : normalizePathFrontend x = x := by
          unfold normalizePathFrontend
          rw [if_neg hr, if_neg hni]
        rw [h1, h1]

/-! ## Sorting lemmas -/

@[simp] theorem childList_mk (nm : String) (sz : Nat) (t : FType)
    (c : Option (List FileNode)) :
    (FileNode.mk nm sz t c).childList = c.getD [] := rfl

theorem insertDesc_perm (a : FileNode) (l : List FileNode) :
    List.Perm (insertDesc a l) (a :: l) := by
  induction l with
  | nil => simp [insertDesc]
  | cons b t ih =>
    unfold insertDesc
    by_cases hba : b.size ≤ a.size
    · rw [if_pos hba]
    · rw [if_neg hba]
      exact (ih.cons b).trans (List.Perm.swap a b t)

theorem jsSortBySizeDesc_perm (l : List FileNode) :
    List.Perm (jsSortBySizeDesc l) l := by
  induction l with
  | nil => simp [jsSortBySizeDesc]
  | cons x t ih =>
    have : jsSortBySizeDesc (x :: t) = insertDesc x (jsSortBySizeDesc t) := rfl
    rw [this]
    exact (insertDesc_perm x _).trans (ih.cons x)

theorem mem_jsSortBySizeDesc {c : FileNode} {l : List FileNode} :
    c ∈ jsSortBySizeDesc l ↔ c ∈ l :=
  (jsSortBySizeDesc_perm l).mem_iff

theorem length_jsSortBySizeDesc (l : List FileNode) :
    (jsSortBySizeDesc l).length = l.length :=
  (jsSortBySizeDesc_perm l).length_eq

theorem sumSizes_eq_sum (l : List FileNode) :
    sumSizes l = (l.map FileNode.size).sum := by
  have h : ∀ (l : List FileNode) (n : Nat),
      l.foldl (fun acc c => acc + c.size) n = n + (l.map FileNode.size).sum := by
    intro l
    induction l with
    | nil => simp
    | cons x t ih => intro n; simp [ih]; omega
  simpa using h l 0

theorem sumSizes_jsSortBySizeDesc (l : List FileNode) :
    sumSizes (jsSortBySizeDesc l) = sumSizes l := by
  rw [sumSizes_eq_sum, sumSizes_eq_sum]
  exact ((jsSortBySizeDesc_perm l).map FileNode.size).sum_eq

theorem sortedDesc_insertDesc (a : FileNode) (l : List FileNode)
    (h : SortedDesc l) : SortedDesc (insertDesc a l) := by
  induction l with
  | nil => simp [insertDesc, SortedDesc]
  | cons b t ih =>
    rw [SortedDesc, List.pairwise_cons] at h
    unfold insertDesc
    by_cases hba : b.size ≤ a.size
    · rw [if_pos hba]
      refine List.Pairwise.cons ?_ (List.Pairwise.cons h.1 h.2)
      intro x hx
      rcases List.mem_cons.mp hx with rfl | hx
      · exact hba
      · exact le_trans (h.1 x hx) hba
    · rw [if_neg hba]
      refine List.Pairwise.cons ?_ (ih h.2)
      intro x hx
      rcases List.mem_cons.mp ((insertDesc_perm a t).mem_iff.mp hx) with rfl | hx
      · omega
      · exact h.1 x hx

theorem sortedDesc_jsSortBySizeDesc (l : List FileNode) :
    SortedDesc (jsSortBySizeDesc l) := by
  induction l with
  | nil => simp [jsSortBySizeDesc, SortedDesc]
  | cons x t ih => exact sortedDesc_insertDesc x _ ih

/-! ## Unfolding lemmas for the scanner -/

theorem analyzeItem_of_skip (p : String) (e : FSEntry)
    (h : shouldSkipPath p = true) :
    analyzeItem p e = .mk (basenameOr p) 0 .file none := by
  cases e <;> simp [analyzeItem, h]

theorem analyzeItem_file (p : String) (sz : Nat)
    (h : shouldSkipPath p = false) :
    analyzeItem p (.file sz) = .mk (basenameOr p) sz .file none := by
  simp [analyzeItem, h]

theorem analyzeItem_dir (p : String) (l : FSEntries)
    (h : shouldSkipPath p = false) :
    analyzeItem p (.dir l) =
      .mk (basenameOr p) (sumSizes (analyzeChildren p l)) .directory
        (some (jsSortBySizeDesc (analyzeChildren p l))) := by
  simp [analyzeItem, h]

theorem analyzeItem_dirUnreadable (p : String)
    (h : shouldSkipPath p = false) :
    analyzeItem p .dirUnreadable = .mk (basenameOr p) 0 .directory (some []) := by
  simp [analyzeItem, h]

theorem analyzeItem_statFails (p : String) :
    analyzeItem p .statFails = .mk (basenameOr p) 0 .file none := by
  cases h : shouldSkipPath p <;> simp [analyzeItem, h]

theorem analyzeItem_other (p : String)
    (h : shouldSkipPath p = false) :
    analyzeItem p .other = .mk (basenameOr p) 0 .file none := by
  simp [analyzeItem, h]

theorem analyzeChildren_cons (p nm : String) (e : FSEntry) (rest : FSEntries) :
    analyzeChildren p (.cons nm e rest) =
      analyzeItem (joinPath p nm) e :: analyzeChildren p rest := by
  simp [analyzeChildren]

theorem analyzeChildren_eq_map (p : String) :
    ∀ l : FSEntries,
      analyzeChildren p l = l.toList.map (fun x => analyzeItem (joinPath p x.1) x.2)
  | .nil => by simp [analyzeChildren, FSEntries.toList]
  | .cons nm e rest => by
    rw [analyzeChildren_cons, analyzeChildren_eq_map p rest]
    simp [FSEntries.toList]

theorem analyzeChildren_length (p : String) (l : FSEntries) :
    (analyzeChildren p l).length = l.length := by
  rw [analyzeChildren_eq_map, FSEntries.length, List.length_map]

theorem TreeOK.self {P : FileNode → Prop} {n : FileNode}
    (h : TreeOK P n) : P n := by
  cases h with
  | node _ hp _ => exact hp

mutual
theorem treeOK_analyzeItem (P : FileNode → Prop)
    (hfile : ∀ nm sz, P (.mk nm sz .file none))
    (hdir : ∀ nm (l : List FileNode),
      P (.mk nm (sumSizes l) .directory (some (jsSortBySizeDesc l))))
    (p : String) (e : FSEntry) : TreeOK P (analyzeItem p e) := by
  cases hsk : shouldSkipPath p with
  | true =>
    rw [analyzeItem_of_skip p e hsk]
    exact .node _ (hfile (basenameOr p) 0) (by simp)
  | false =>
    cases e with
    | file sz =>
      rw [analyzeItem_file p sz hsk]
      exact .node _ (hfile (basenameOr p) sz) (by simp)
    | dir l =>
      rw [analyzeItem_dir p l hsk]
      refine .node _ (hdir (basenameOr p) (analyzeChildren p l)) ?_
      intro c hc
      rw [childList_mk, Option.getD_some, mem_jsSortBySizeDesc] at hc
      exact treeOK_analyzeChildren P hfile hdir p l c hc
    | dirUnreadable =>
      rw [analyzeItem_dirUnreadable p hsk]
      refine .node _ ?_ (by simp)
      simpa [sumSizes, jsSortBySizeDesc] using hdir (basenameOr p) []
    | statFails =>
      rw [analyzeItem_statFails p]
      exact .node _ (hfile (basenameOr p) 0) (by simp)
    | other =>
      rw [analyzeItem_other p hsk]
      exact .node _ (hfile (basenameOr p) 0) (by simp)

theorem treeOK_analyzeChildren (P : FileNode → Prop)
    (hfile : ∀ nm sz, P (.mk nm sz .file none))
    (hdir : ∀ nm (l : List FileNode),
      P (.mk nm (sumSizes l) .directory (some (jsSortBySizeDesc l))))
    (p : String) (l : FSEntries) : ∀ n ∈ analyzeChildren p l, TreeOK P n := by
  cases l with
  | nil => simp [analyzeChildren]
  | cons nm e rest =>
    intro n hn
    rw [analyzeChildren_cons] at hn
    rcases List.mem_cons.mp hn with rfl | hn
    · exact treeOK_analyzeItem P hfile hdir (joinPath p nm) e
    · exact treeOK_analyzeChildren P hfile hdir p rest n hn
end

/-! ## Claims C6, C10 -/

/-- C6: per-child failure tolerance of `analyzeItem`.  For a readable
directory, every listed child — failing or not — contributes exactly one
node (none is dropped and nothing propagates to the caller), the
directory's size is the sum over those children, a child whose `stat`
raises is recorded as a zero-size file node, and a child directory whose
listing raises is recorded as a zero-size directory node; scanning of the
remaining siblings continues in every case, since each child's node is
computed independently of its siblings. -/
theorem analyzeItem_child_failure_tolerated (p : String) (l : FSEntries)
    (h : shouldSkipPath p = false) :
    (analyzeItem p (.dir l)).childList.length = l.length
    ∧ (analyzeItem p (.dir l)).size = sumSizes (analyzeChildren p l)
    ∧ analyzeChildren p l
        = l.toList.map (fun x => analyzeItem (joinPath p x.1) x.2)
    ∧ (∀ q, analyzeItem q .statFails = .mk (basenameOr q) 0 .file none)
    ∧ (∀ q, shouldSkipPath q = false →
        analyzeItem q .dirUnreadable = .mk (basenameOr q) 0 .directory (some [])) := by
  refine ⟨?_, ?_, analyzeChildren_eq_map p l, analyzeItem_statFails, ?_⟩
  · rw [analyzeItem_dir p l h]
    simp [length_jsSortBySizeDesc, analyzeChildren_length]
  · rw [analyzeItem_dir p l h]
    rfl
  · intro q hq
    exact analyzeItem_dirUnreadable q hq

/-- C6 witness: a directory with one readable file and one child whose
`stat` fails; the failing child is recorded with size 0, the sibling is
still scanned, and the parent size is the sibling's size. -/
theorem analyzeItem_child_failure_tolerated_witness :
    shouldSkipPath "C:\\data" = false
    ∧ (analyzeItem "C:\\data"
        (.dir (.cons "ok.txt" (.file 7) (.cons "broken" .statFails .nil)))).childList.length = 2
    ∧ analyzeItem "C:\\data\\broken" .statFails = .mk "broken" 0 .file none
    ∧ (analyzeItem "C:\\data"
        (.dir (.cons "ok.txt" (.file 7) (.cons "broken" .statFails .nil)))).size = 7 := by
  refine ⟨by decide, ?_, ?_, ?_⟩
  · exact (analyzeItem_child_failure_tolerated "C:\\data"
      (.cons "ok.txt" (.file 7) (.cons "broken" .statFails .nil)) (by decide)).1
  · rfl
  · rfl

/-- C10: for every path the classifier skips, `analyzeItem` returns a
node of kind `file` with size 0 and no children field — whatever the
underlying filesystem entry actually is, including a directory. -/
theorem analyzeItem_skipped_is_zero_file (p : String) (e : FSEntry)
    (h : shouldSkipPath p = true) :
    analyzeItem p e = .mk (basenameOr p) 0 .file none :=
  analyzeItem_of_skip p e h

/-- C10 witness: `C:\Windows` is skipped by the classifier, and even
though the modelled entry is a directory containing a 5-byte file, the
scanner reports it as a zero-size file node without children. -/
theorem analyzeItem_skipped_is_zero_file_witness :
    shouldSkipPath "C:\\Windows" = true
    ∧ analyzeItem "C:\\Windows" (.dir (.cons "a.txt" (.file 5) .nil))
        = .mk "Windows" 0 .file none := by
  refine ⟨by decide, ?_⟩
  have h := analyzeItem_skipped_is_zero_file "C:\\Windows"
    (.dir (.cons "a.txt" (.file 5) .nil)) (by decide)
  rw [h]
  rfl

/-! ## Claim C1 -/

/-- C1: for every Directory node in the tree returned by the exhaustive
(non-estimated) scanner `diskAPI.analyzeItem`, the node's size equals the
exact sum of its children's sizes — skipped and failing children appear
as zero-size nodes and so contribute 0 to that sum; and the root node
returned by `diskService.analyzePath`, whenever it is a directory node,
likewise carries the exact sum of its children's sizes. -/
theorem scan_directory_size_is_sum_of_children :
    (∀ (p : String) (e : FSEntry), TreeOK DirSumOK (analyzeItem p e))
    ∧ ∀ (fs : FS) (cache : DiskCache) (tp : String) (force : Bool) (now : Nat),
        DirSumOK (diskService_analyzePath fs cache tp force now).1.result := by
  constructor
  · intro p e
    refine treeOK_analyzeItem _ ?_ ?_ p e
    · intro nm sz h
      simp [FileNode.type] at h
    · intro nm l _
      simp only [childList_mk, Option.getD_some, FileNode.size]
      exact (sumSizes_jsSortBySizeDesc l).symm
  · intro fs cache tp force now
    simp only [diskService_analyzePath]
    repeat' split
    all_goals intro h
    all_goals first
      | rfl
      | exact FType.noConfusion h

/-- C1 witness: a concrete two-file directory analyzed through
`diskService.analyzePath`. -/
theorem scan_directory_size_is_sum_of_children_witness :
    (diskService_analyzePath fsDocs emptyDiskCache "C:\\docs" false 0).1.result.size
      = sumSizes
        (diskService_analyzePath fsDocs emptyDiskCache "C:\\docs" false 0).1.result.childList :=
  scan_directory_size_is_sum_of_children.2 fsDocs emptyDiskCache "C:\\docs" false 0 rfl

/-! ## Claim C4 -/

/-- C4 (amended): children are sorted descending by size at the point a
scan completes — throughout the tree returned by `diskAPI.analyzeItem`,
in the drive branch of `diskService.analyzePath` whenever the sorted
top-level scan found at least one positive-size entry (so the fallback
did not fire), and in the non-drive directory branch — but the drive
fallback branch appends probed directories in probe order without
re-sorting. -/
theorem children_sorted_desc_except_drive_fallback :
    (∀ (p : String) (e : FSEntry),
      TreeOK (fun n => SortedDesc n.childList) (analyzeItem p e))
    ∧ (∀ (fs : FS) (rootPath : String) (rootItems : List String),
        (driveSortedChildren fs rootPath rootItems).isEmpty = false →
        SortedDesc (driveFinalChildren fs rootPath rootItems))
    ∧ ∀ (fs : FS) (fullPath : String) (items : List String),
        SortedDesc (jsSortBySizeDesc (nondriveChildren fs fullPath items)) := by
  refine ⟨?_, ?_, ?_⟩
  · intro p e
    refine treeOK_analyzeItem _ ?_ ?_ p e
    · intro nm sz
      simp [SortedDesc]
    · intro nm l
      simpa using sortedDesc_jsSortBySizeDesc l
  · intro fs rootPath rootItems hne
    unfold driveFinalChildren
    simp only [hne, Bool.false_eq_true, if_false]
    exact sortedDesc_jsSortBySizeDesc _
  · intro fs fullPath items
    exact sortedDesc_jsSortBySizeDesc _

/-- C4 witness: a drive whose top-level scan finds one large file; the
completed children list is sorted descending. -/
theorem children_sorted_desc_except_drive_fallback_witness :
    (driveSortedChildren fsDriveDirect "C:\\" ["big.bin"]).isEmpty = false
    ∧ SortedDesc (driveFinalChildren fsDriveDirect "C:\\" ["big.bin"]) :=
  ⟨by decide,
    children_sorted_desc_except_drive_fallback.2.1 fsDriveDirect "C:\\" ["big.bin"]
      (by decide)⟩

/-- C4 counterexample: at the completion of the drive scan of `C:` in the
environment `fsDriveFallback` (empty usable root listing, fallback probes
finding `Users` at 10 bytes then `Program Files` at 20 bytes), the
returned directory node's children are `[Users(10), Program Files(20)]` —
not in descending order of size, contradicting the claim. -/
theorem drive_scan_fallback_children_unsorted :
    (diskService_analyzePath fsDriveFallback emptyDiskCache "C:" false 0).1.result.childList
      = [.mk "Users" 10 .directory none, .mk "Program Files" 20 .directory none]
    ∧ ¬ SortedDesc
        ((diskService_analyzePath fsDriveFallback emptyDiskCache "C:" false 0).1.result.childList) := by
  refine ⟨rfl, ?_⟩
  intro h
  rw [show (diskService_analyzePath fsDriveFallback emptyDiskCache "C:" false 0).1.result.childList
      = [.mk "Users" 10 .directory none, .mk "Program Files" 20 .directory none] from rfl] at h
  rw [SortedDesc, List.pairwise_cons] at h
  have h20 := h.1 (.mk "Program Files" 20 .directory none) (List.mem_cons_self _ _)
  simp [FileNode.size] at h20

/-! ## Claim C2 -/

/-- C2: the node returned for a directory whose size came from the
bounded estimator is *not* marked in any way.  In `fsEstimated`, the
depth-1 size of `C:\data\stuff` is the fixed 1 GB system-folder estimate
(its real content is a single 123-byte file), yet the returned child node
is the bare record `⟨"stuff", oneGB, directory⟩` — byte-identical to the
node returned in `fsExact`, where `stuff` really holds exactly `oneGB`
bytes.  No flag or reserved name distinguishes the estimate (the
`FileNode` record has no such field), so the claimed marking does not
exist in the code. -/
theorem estimated_node_indistinguishable_from_exact :
    (diskService_analyzePath fsEstimated emptyDiskCache "C:\\data" false 0).1.result
      = (diskService_analyzePath fsExact emptyDiskCache "C:\\data" false 0).1.result
    ∧ (diskService_analyzePath fsEstimated emptyDiskCache "C:\\data" false 0).1.result.childList
        = [.mk "stuff" oneGB .directory none]
    ∧ calculateDirectorySize fsEstimated 1 "C:\\data\\stuff" = oneGB
    ∧ fsEstimated.readdir "C:\\data\\stuff" = some ["Windows"]
    ∧ FS.statOk fsEstimated "C:\\data\\stuff\\Windows\\w.txt" = some ⟨.file, 123⟩ :=
  ⟨rfl, rfl, rfl, rfl, rfl⟩

/-! ## Claim C3 -/

/-- C3: ancestor cache entries survive a successful delete.  Deleting
`C:\Users` succeeds and removes the cache entry keyed `C:\Users`, but the
entry for the parent (and volume root) `C:` is left in place still
listing `Users` at 100 bytes, and a subsequent cache-served analyze of
`C:` returns children that still include the deleted path's
contribution — contradicting the claimed ancestor invalidation. -/
theorem delete_leaves_ancestor_cache_stale :
    (diskService_deletePath fsDeleteUsers cacheWithUsers "C:\\Users").1.success = true
    ∧ List.lookup "C:\\Users"
        (diskService_deletePath fsDeleteUsers cacheWithUsers "C:\\Users").2.largeDirectories
        = none
    ∧ List.lookup "C:"
        (diskService_deletePath fsDeleteUsers cacheWithUsers "C:\\Users").2.largeDirectories
        = some [⟨"C:\\Users", 100, "Users"⟩, ⟨"C:\\temp", 40, "temp"⟩]
    ∧ (diskService_analyzePath fsDeleteUsers
        (diskService_deletePath fsDeleteUsers cacheWithUsers "C:\\Users").2
        "C:" false 999).1.result.childList
        = [.mk "Users" 100 .directory none, .mk "temp" 40 .directory none] :=
  ⟨rfl, rfl, rfl, rfl⟩

/-! ## Claim C5 -/

/-- C5 (amended): with `forceRefresh` false and a non-empty cached volume
list, `getMounts` returns the cached list unchanged with its cached
timestamp and issues no enumeration command; and two consecutive
`getMounts(false)` calls issue the command at most once *provided* the
first call's command does not succeed with an output parsing to an empty
volume list (in that one case the cache stays empty and the second call
runs the command again). -/
theorem getMounts_cached_list_short_circuits :
    (∀ (env : VolEnv) (cache : DiskCache), cache.mountPoints ≠ [] →
      diskService_getMounts env cache false
        = (⟨cache.mountPoints, cache.lastUpdated⟩, cache, false))
    ∧ ∀ (cache : DiskCache) (env1 env2 : VolEnv),
        (∀ s, env1.execResult = some s → parseWmicOutput s ≠ []) →
        (diskService_getMounts env1 cache false).2.2 = true →
        (diskService_getMounts env2
          (diskService_getMounts env1 cache false).2.1 false).2.2 = false := by
  have hserve : ∀ (env : VolEnv) (cache : DiskCache), cache.mountPoints ≠ [] →
      diskService_getMounts env cache false
        = (⟨cache.mountPoints, cache.lastUpdated⟩, cache, false) := by
    intro env cache hne
    have hE : cache.mountPoints.isEmpty = false := by
      cases hmp : cache.mountPoints with
      | nil => exact absurd hmp hne
      | cons a t => rfl
    simp [diskService_getMounts, hE]
  refine ⟨hserve, ?_⟩
  intro cache env1 env2 hp h1
  cases hE : cache.mountPoints.isEmpty with
  | true =>
    cases hex : env1.execResult with
    | some s =>
      have hc1 : (diskService_getMounts env1 cache false).2.1
          = DiskCache.mk (parseWmicOutput s) cache.largeDirectories env1.now := by
        simp [diskService_getMounts, hE, hex]
      rw [hc1, hserve env2 _ (hp s hex)]
    | none =>
      have hc1 : (diskService_getMounts env1 cache false).2.1
          = DiskCache.mk
              (fallbackMountC :: (if env1.dStatOk then [fallbackMountD] else []))
              cache.largeDirectories env1.now := by
        simp [diskService_getMounts, hE, hex]
      rw [hc1, hserve env2 _ (by simp)]
  | false =>
    rw [show (diskService_getMounts env1 cache false).2.2 = false by
      simp [diskService_getMounts, hE]] at h1
    exact absurd h1 (by simp)

/-- C5 witness: a non-empty cached list is served without running the
command, and after a first call whose command fails (populating the
fallback), the second call runs no command. -/
theorem getMounts_cached_list_short_circuits_witness :
    (diskService_getMounts envEmptyParse (DiskCache.mk [fallbackMountC] [] 77) false
        = (⟨[fallbackMountC], 77⟩, DiskCache.mk [fallbackMountC] [] 77, false))
    ∧ (diskService_getMounts (VolEnv.mk none false 9)
        (diskService_getMounts (VolEnv.mk none false 9) emptyDiskCache false).2.1
        false).2.2 = false :=
  ⟨getMounts_cached_list_short_circuits.1 envEmptyParse
      (DiskCache.mk [fallbackMountC] [] 77) (by decide),
    getMounts_cached_list_short_circuits.2 emptyDiskCache
      (VolEnv.mk none false 9) (VolEnv.mk none false 9)
      (fun s h => nomatch h) rfl⟩

/-- C5 counterexample: starting from an empty cache, a `wmic` success
whose output parses to zero volumes leaves the cache empty, so *both* of
two consecutive `getMounts(false)` calls issue the enumeration command —
the claimed `at most once` fails. -/
theorem getMounts_empty_parse_runs_command_twice :
    (diskService_getMounts envEmptyParse emptyDiskCache false).2.2 = true
    ∧ (diskService_getMounts envEmptyParse
        (diskService_getMounts envEmptyParse emptyDiskCache false).2.1 false).2.2 = true :=
  ⟨rfl, rfl⟩
